import Mathlib

/-!
Verification of the QuadChat multi-provider dispatch and reconciliation engine
(`src/quadchat_app/frontend/js/quadchat.js`) against its specification.

The JavaScript source is shallowly embedded: DOM panel contents become lists of
bubbles, the JS `Set` (which iterates in insertion order, where `add` of an
existing element keeps its position and `delete` followed by `add` moves it to
the end) becomes an insertion-ordered duplicate-free list, and network activity
becomes an explicit trace of calls.
-/

set_option autoImplicit false
set_option linter.unusedVariables false

namespace QuadChat

/-- Message roles stored in a conversation (`msg.role`). -/
inductive Role where
  | user
  | assistant
  | error
deriving DecidableEq, Repr

/-- A conversation message: `{role, content, model}`; `model` is `null` for
user messages (`none` here). -/
structure Message where
  role : Role
  content : String
  model : Option String
deriving DecidableEq, Repr

/-- A rendered chat bubble inside a panel (`addMessageToPanel` appends one
`div.message-bubble` with a role class and text content). -/
structure Bubble where
  role : Role
  content : String
deriving DecidableEq, Repr

/-- Does the second character list start with the first one? -/
def charsStartWith : List Char → List Char → Bool
  | [], _ => true
  | _ :: _, [] => false
  | p :: ps, c :: cs => (p == c) && charsStartWith ps cs

/-- Does the second character list contain the first as a contiguous run? -/
def charsContainSub (pat : List Char) : List Char → Bool
  | [] => charsStartWith pat []
  | c :: cs => charsStartWith pat (c :: cs) || charsContainSub pat cs

/-- JavaScript `String.prototype.includes`: substring containment. -/
def strIncludes (s pat : String) : Bool :=
  charsContainSub pat.toList s.toList

/-- JavaScript `String.prototype.trim`: strip whitespace from both ends. -/
def jsTrim (s : String) : String :=
  (((s.toList.dropWhile Char.isWhitespace).reverse.dropWhile Char.isWhitespace).reverse).asString

/-- The auto-created conversation title computed by `sendMessage`:
`message.substring(0, 50)` plus an ellipsis for longer messages. -/
def autoTitle (message : String) : String :=
  (message.toList.take 50).asString ++ (if message.length > 50 then "..." else "")

/-- `getProviderPanel(model)` from the source: substring tests in a fixed
order, first match wins; `null`/no-keyword models resolve to `null`. -/
def getProviderPanel : Option String → Option Nat
  | none => none
  | some m =>
    if strIncludes m "openai" || strIncludes m "gpt" then some 1
    else if strIncludes m "claude" then some 2
    else if strIncludes m "gemini" then some 3
    else if strIncludes m "grok" then some 4
    else none

/-- JS `Set.add` on an insertion-ordered set: adding an existing element keeps
the set (and its order) unchanged; a new element goes to the end. -/
def jsSetAdd (s : List Nat) (p : Nat) : List Nat :=
  if p ∈ s then s else s ++ [p]

/-- `toggleProvider(num)` as it affects `enabledProviders`: the checkbox state
`isNowEnabled` decides between `Set.add` and `Set.delete`. -/
def toggleProvider (num : Nat) (isNowEnabled : Bool) (enabled : List Nat) : List Nat :=
  if isNowEnabled then jsSetAdd enabled num else enabled.erase num

/-- First pass of `renderMessages` (grid view), one step per message: the
accumulator is `userMessageProviders` as an ordered list of per-user-turn
panel sets; an assistant message adds its resolved panel to the latest turn
(`userMsgIndex >= 0` corresponds to a non-empty accumulator). -/
def pass1step (acc : List (List Nat)) (m : Message) : List (List Nat) :=
  match m.role with
  | Role.user => acc ++ [[]]
  | Role.assistant =>
    match acc.getLast?, getProviderPanel m.model with
    | some s, some p => acc.dropLast ++ [jsSetAdd s p]
    | _, _ => acc
  | Role.error => acc

/-- `userMessageProviders` after the first pass of `renderMessages`:
entry `k` is the set of panels that produced a reply to user turn `k`. -/
def userTurnPanels (msgs : List Message) : List (List Nat) :=
  msgs.foldl pass1step []

/-- Second pass of `renderMessages` (grid view), projected onto one panel
`slot`: `k` is `userMsgIndex`. A user message is appended to `slot` only if
`slot` is among the turn's responders and enabled; any other message is
appended when its model resolves to `slot` and `slot` is enabled. -/
def renderPass2 (turns : List (List Nat)) (enabled : List Nat) (slot : Nat) :
    Nat → List Message → List Bubble
  | _, [] => []
  | k, m :: rest =>
    match m.role with
    | Role.user =>
      (if slot ∈ turns.getD k [] ∧ slot ∈ enabled
       then [⟨Role.user, m.content⟩] else [])
        ++ renderPass2 turns enabled slot (k + 1) rest
    | r =>
      (match getProviderPanel m.model with
       | some p => if p = slot ∧ slot ∈ enabled then [⟨r, m.content⟩] else []
       | none => []) ++ renderPass2 turns enabled slot k rest

/-- `renderMessages` in grid view, restricted to panel `slot`: the source
first clears the panel (`innerHTML = ''`), so the previous contents `prev`
are discarded, then runs the two passes over the canonical message list. -/
def renderMessagesPanel (msgs : List Message) (enabled : List Nat) (slot : Nat)
    (prev : List Bubble) : List Bubble :=
  renderPass2 (userTurnPanels msgs) enabled slot 0 msgs

/-- A message that is not a user message (used to delimit user turns). -/
def isNotUser (m : Message) : Bool :=
  match m.role with
  | Role.user => false
  | _ => true

/-- An assistant message whose model resolves to `slot`. -/
def respondsTo (slot : Nat) (m : Message) : Bool :=
  m.role == Role.assistant && getProviderPanel m.model == some slot

/-- The user turns of a message list, stated the way the spec describes them:
each `user` message paired with the block of following messages up to (not
including) the next `user` message. Messages before the first user message
belong to no turn. -/
def turnList : List Message → List (String × List Message)
  | [] => []
  | m :: rest =>
    if m.role = Role.user then
      (m.content, rest.takeWhile isNotUser) :: turnList (rest.dropWhile isNotUser)
    else turnList rest
termination_by msgs => msgs.length
decreasing_by
  all_goals simp_wf
  all_goals first
  | (have h : (List.dropWhile isNotUser rest).length ≤ rest.length := by
       induction rest with
       | nil => simp [List.dropWhile]
       | cons a l ih =>
         rw [List.dropWhile_cons]
         cases isNotUser a
         all_goals simp
         all_goals omega
     omega)
  | omega

/-- The effect of one non-user message on the panel set of the current user
turn: an assistant message with a resolvable model adds its panel. -/
def panelStep (s : List Nat) (m : Message) : List Nat :=
  match m.role with
  | Role.assistant =>
    match getProviderPanel m.model with
    | some p => jsSetAdd s p
    | none => s
  | _ => s

/-- Turn-structured reformulation of the first pass, used to relate
`userTurnPanels` to `turnList`: collect the current turn's panel set `s`
until the next user message closes the turn. -/
def collectTurn (s : List Nat) : List Message → List (List Nat)
  | [] => [s]
  | m :: rest =>
    if m.role = Role.user then s :: collectTurn [] rest
    else collectTurn (panelStep s m) rest

/-- Turn-structured reformulation of `userTurnPanels`: skip messages before
the first user message, then collect turn by turn. -/
def turnsSpec : List Message → List (List Nat)
  | [] => []
  | m :: rest =>
    if m.role = Role.user then collectTurn [] rest
    else turnsSpec rest

/-- The user bubbles of one panel in lockstep with the per-turn panel sets:
a user message consumes the head of `ts`; other messages are skipped. Used
as a stepping stone between `renderPass2` and `turnList`. -/
def wpass (enabled : List Nat) (slot : Nat) : List (List Nat) → List Message → List Bubble
  | _, [] => []
  | ts, m :: rest =>
    if m.role = Role.user then
      (if slot ∈ ts.getD 0 [] ∧ slot ∈ enabled then [⟨Role.user, m.content⟩] else [])
        ++ wpass enabled slot (ts.drop 1) rest
    else wpass enabled slot ts rest

/-! ### Provider registry and dispatch (`PROVIDER_INFO`, `sendMessage`) -/

/-- `PROVIDER_INFO[num].id`. -/
def PROVIDER_ID : Nat → String
  | 1 => "openai"
  | 2 => "claude"
  | 3 => "gemini"
  | 4 => "grok"
  | _ => ""

/-- The default per-slot models (`providerModels` initial value, also used by
`resetProvidersToDefault` and `loadProviderSettings`). -/
def defaultModels : Nat → String
  | 1 => "gpt-5.2"
  | 2 => "claude-sonnet-4-5-20250929"
  | 3 => "gemini-3-pro-preview"
  | 4 => "grok-4-0709"
  | _ => ""

/-- One request issued by `sendMessage` via `sendToProvider(providerInfo.id,
message, systemContext, num, index > 0, model)`; `skipUserMessage` is the
`skip_user_message` field of the POST body. -/
structure DispatchRequest where
  provider : String
  message : String
  panelNum : Nat
  skipUserMessage : Bool
  model : String
deriving DecidableEq, Repr

/-- The fan-out of `sendMessage`: `Array.from(enabledProviders)` (JS `Set`
iteration = insertion order) mapped with its index; only index 0 sends
`skip_user_message = false`. -/
def dispatchRequests (enabled : List Nat) (models : Nat → String)
    (message : String) : List DispatchRequest :=
  enabled.enum.map fun p =>
    { provider := PROVIDER_ID p.2
      message := message
      panelNum := p.2
      skipUserMessage := decide (p.1 > 0)
      model := models p.2 }

/-! ### Error aggregator (`showApiKeyAlert` and its debounce flush) -/

/-- JS `Set.add` for provider display names. -/
def jsSetAddStr (s : List String) (x : String) : List String :=
  if x ∈ s then s else s ++ [x]

/-- The provider display name extracted from an error message by
`showApiKeyAlert` (substring tests in source order). -/
def providerNameOf (message : String) : Option String :=
  if strIncludes message "OpenAI" then some "ChatGPT"
  else if strIncludes message "Anthropic" then some "Claude"
  else if strIncludes message "Google" then some "Gemini"
  else if strIncludes message "xAI" then some "Grok"
  else none

/-- State of the error aggregator: `missingApiKeyProviders` (a JS `Set`,
insertion-ordered and duplicate-free) and whether a debounce timer is armed
(`apiKeyAlertTimeout`). -/
structure Aggregator where
  missingApiKeyProviders : List String
  timerPending : Bool
deriving DecidableEq, Repr

/-- `showApiKeyAlert(message)` before the timer fires: record the provider
name (if recognised) and re-arm the 300ms debounce timer. -/
def showApiKeyAlert (st : Aggregator) (message : String) : Aggregator :=
  { missingApiKeyProviders :=
      match providerNameOf message with
      | some n => jsSetAddStr st.missingApiKeyProviders n
      | none => st.missingApiKeyProviders
    timerPending := true }

/-- JavaScript `Array.prototype.join(sep)`. -/
def jsJoin (sep : String) : List String → String
  | [] => ""
  | [a] => a
  | a :: rest => a ++ sep ++ jsJoin sep rest

/-- The notification text computed inside the timer callback of
`showApiKeyAlert`: 1 name - itself; 2 - joined with `" & "`; more -
`pop` the last, comma-join the rest, append `", & "` and the last. -/
def alertText (providers : List String) : String :=
  if providers.length = 1 then providers.getD 0 ""
  else if providers.length = 2 then jsJoin " & " providers
  else if providers.length > 2 then
    jsJoin ", " providers.dropLast ++ ", & " ++ (providers.getLast?.getD "")
  else "the selected providers"

/-- The timer callback firing: render one notification with `alertText` of
the collected names and clear the set. -/
def flushApiKeyAlert (st : Aggregator) : String × Aggregator :=
  (alertText st.missingApiKeyProviders,
   { missingApiKeyProviders := [], timerPending := false })

/-- The Oxford-comma join the spec prescribes for three or more names: the
items comma-separated, with the last item joined by `, & `. -/
def oxfordJoin : List String → String
  | [] => ""
  | [n] => n
  | [a, b] => a ++ ", & " ++ b
  | a :: rest => a ++ ", " ++ oxfordJoin rest

/-- The spec's join rule: one name - the name itself; two names -
`A & B`; three or more names - Oxford-comma style. -/
def specJoin : List String → String
  | [] => ""
  | [n] => n
  | [a, b] => a ++ " & " ++ b
  | l => oxfordJoin l

/-- Fixed example aggregator state: ChatGPT then Claude collected within the
debounce window. -/
def aggAB : Aggregator :=
  { missingApiKeyProviders := ["ChatGPT", "Claude"], timerPending := true }

/-! ### Per-request response handling (`sendToProvider`) -/

/-- A parsed JSON response body: `detail` (error payloads) and
`assistant_message.content` (success payloads). -/
structure RespBody where
  detail : Option String
  assistant : String
deriving DecidableEq, Repr

/-- The result of `response.json()`: either a parsed body or the message of
the exception thrown on a non-JSON body. -/
inductive BodyResult where
  | parsed (body : RespBody)
  | notJson (parseMsg : String)
deriving DecidableEq, Repr

/-- One provider HTTP response as observed by `sendToProvider`: the `ok`
flag, the status code, and the outcome of parsing the body as JSON. -/
structure ProviderResponse where
  ok : Bool
  status : Nat
  body : BodyResult
deriving DecidableEq, Repr

/-- The per-slot outcome `sendToProvider` produces in grid view: an
assistant bubble, an error bubble, or a signal to the error aggregator. -/
inductive SlotEffect where
  | assistantBubble (content : String)
  | errorBubble (text : String)
  | apiKeyAlert (message : String)
deriving DecidableEq, Repr

/-- `sendToProvider` response handling: `response.json()` throws on a
non-JSON body (before `response.ok` is ever consulted); a non-ok JSON body
throws `Error(data.detail || 'Failed to send message')`; the catch block
routes messages containing `'API key not configured'` to `showApiKeyAlert`
and renders every other failure as an in-panel error bubble. -/
def sendToProvider (resp : ProviderResponse) : SlotEffect :=
  match resp.body with
  | BodyResult.notJson parseMsg =>
    if strIncludes parseMsg "API key not configured" then SlotEffect.apiKeyAlert parseMsg
    else SlotEffect.errorBubble ("Error: " ++ parseMsg)
  | BodyResult.parsed body =>
    if resp.ok then SlotEffect.assistantBubble body.assistant
    else
      let msg := body.detail.getD "Failed to send message"
      if strIncludes msg "API key not configured" then SlotEffect.apiKeyAlert msg
      else SlotEffect.errorBubble ("Error: " ++ msg)

/-- Is the effect an in-panel error bubble? -/
def isErrorBubble : SlotEffect → Bool
  | SlotEffect.errorBubble _ => true
  | _ => false

/-- One dispatch cycle's per-slot outcomes: each enabled slot's effect is
computed from that slot's own response only (the `Promise.all` join collects
all of them; a rejection is impossible because every failure is caught
inside `sendToProvider`). -/
def dispatchCycleEffects (enabled : List Nat)
    (responses : Nat → ProviderResponse) : List (Nat × SlotEffect) :=
  enabled.map fun n => (n, sendToProvider (responses n))

/-! ### Conversation state, settings reload, `selectConversation`,
`sendMessage` -/

/-- One slot's entry in a conversation's `provider_settings`: JS objects may
omit either field (`none`). An empty-string model is falsy in JS and is
modelled as `none`. -/
structure SlotSettings where
  enabled : Option Bool
  model : Option String
deriving DecidableEq, Repr

/-- A conversation as fetched from the store (the fields the core reads). -/
structure Conversation where
  id : Nat
  messages : List Message
  provider_settings : Option (List (Nat × SlotSettings))
deriving Repr

/-- The client-side mutable state touched by the dispatch engine. `panels`
is the grid view contents per slot. -/
structure AppState where
  currentConversation : Option Conversation
  enabledProviders : List Nat
  providerModels : Nat → String
  panels : Nat → List Bubble

/-- `loadProviderSettings(settings)`: reset to defaults, then apply each
stored entry in turn (keys outside 1-4 are ignored; `enabled === false`
deletes, anything else re-adds; a truthy `model` overrides). -/
def loadProviderSettings (settings : Option (List (Nat × SlotSettings))) :
    List Nat × (Nat → String) :=
  match settings with
  | none => ([1, 2, 3, 4], defaultModels)
  | some entries =>
    if entries.isEmpty then ([1, 2, 3, 4], defaultModels)
    else
      entries.foldl
        (fun acc e =>
          if e.1 ∈ ([1, 2, 3, 4] : List Nat) then
            (( if e.2.enabled = some false then acc.1.erase e.1 else jsSetAdd acc.1 e.1),
             ( match e.2.model with
               | some m => fun n => if n = e.1 then m else acc.2 n
               | none => acc.2))
          else acc)
        ([1, 2, 3, 4], defaultModels)

/-- `selectConversation(id, skipProviderReload)` once the fetch resolved
with `conv`: replace `currentConversation` with the server copy, reload
provider settings unless `skipProviderReload`, and re-render every panel
from scratch (the grid render clears each panel before rebuilding it). -/
def selectConversation (conv : Conversation) (skipProviderReload : Bool)
    (st : AppState) : AppState :=
  let ps := if skipProviderReload then (st.enabledProviders, st.providerModels)
            else loadProviderSettings conv.provider_settings
  { currentConversation := some conv
    enabledProviders := ps.1
    providerModels := ps.2
    panels := fun slot => renderMessagesPanel conv.messages ps.1 slot (st.panels slot) }

/-- One network call made by the frontend during `sendMessage`. -/
inductive NetCall where
  | createConversation (title : String)
  | listConversations
  | getConversation (id : Nat)
  | postMessage (req : DispatchRequest)
deriving DecidableEq, Repr

/-- Is the network call a provider message POST? -/
def isPostMessage : NetCall → Bool
  | NetCall.postMessage _ => true
  | _ => false

/-- The slot of a provider message POST (0 for other calls). -/
def postSlot : NetCall → Nat
  | NetCall.postMessage r => r.panelNum
  | _ => 0

/-- `sendMessage()` as a state transformer with an explicit network trace.
`newConv` is the server's reply to the auto-create path (a fresh
conversation has no stored provider settings); `finalConv` is the canonical
conversation returned by the post-dispatch reconciliation fetch. Returns the
new state, the ordered network calls, and whether the `'No providers
enabled'` alert fired. Loading bubbles are appended and removed within the
cycle and the reconciliation re-render replaces every panel wholesale, so
only the optimistic user bubbles are recorded in the transient state. -/
def sendMessage (input : String) (newConv finalConv : Conversation)
    (st : AppState) : AppState × List NetCall × Bool :=
  let message := jsTrim input
  if message = "" then (st, [], false)
  else
    let stepOne :=
      match st.currentConversation with
      | some _ => (st, ([] : List NetCall))
      | none =>
        (selectConversation newConv false st,
         [NetCall.createConversation (autoTitle message), NetCall.listConversations,
          NetCall.getConversation newConv.id])
    let st1 := stepOne.1
    let active := st1.enabledProviders
    if active = [] then (st1, stepOne.2, true)
    else
      let st2 : AppState :=
        { st1 with
          panels := fun slot =>
            if slot ∈ active then st1.panels slot ++ [⟨Role.user, message⟩]
            else st1.panels slot }
      let reqs := dispatchRequests active st1.providerModels message
      (selectConversation finalConv true st2,
       stepOne.2 ++ reqs.map NetCall.postMessage
         ++ [NetCall.getConversation finalConv.id],
       false)

/-! ### Fixed example data used by closed witnesses and counterexamples -/

/-- A minimal conversation. -/
def emptyConv : Conversation :=
  { id := 0, messages := [], provider_settings := none }

/-- The page-load state: no conversation selected, everything enabled. -/
def initialState : AppState :=
  { currentConversation := none, enabledProviders := [1, 2, 3, 4],
    providerModels := defaultModels, panels := fun _ => [] }

/-- No conversation selected and no provider enabled. -/
def noProviderState : AppState :=
  { currentConversation := none, enabledProviders := [],
    providerModels := defaultModels, panels := fun _ => [] }

/-- A freshly auto-created conversation (the server stores no provider
settings for it yet). -/
def freshConv : Conversation :=
  { id := 7, messages := [], provider_settings := none }

/-- A selected conversation. -/
def convA : Conversation :=
  { id := 3, messages := [], provider_settings := none }

/-- A state with `convA` selected and slots 1 and 2 enabled. -/
def stateA : AppState :=
  { currentConversation := some convA, enabledProviders := [1, 2],
    providerModels := defaultModels, panels := fun _ => [] }

/-! ### Helper lemmas -/

theorem enumFrom_map_skip {α : Type} :
    ∀ (l : List α) (k : Nat), 0 < k →
      (List.enumFrom k l).map (fun p => decide (p.1 > 0)) = List.replicate l.length true := by
  intro l
  induction l with
  | nil => intro k hk; rfl
  | cons a rest ih =>
    intro k hk
    rw [List.enumFrom_cons, List.map_cons, List.length_cons, List.replicate_succ,
      ih (k + 1) (by omega)]
    simp [hk]

theorem dispatchRequests_slots (enabled : List Nat) (models : Nat → String)
    (message : String) :
    (dispatchRequests enabled models message).map (fun r => r.panelNum) = enabled := by
  unfold dispatchRequests
  rw [List.map_map]
  have h : ((fun r : DispatchRequest => r.panelNum) ∘ fun p : Nat × Nat =>
      ({ provider := PROVIDER_ID p.2, message := message, panelNum := p.2,
         skipUserMessage := decide (p.1 > 0), model := models p.2 } : DispatchRequest))
      = Prod.snd := rfl
  rw [h, List.enum_map_snd]

theorem isNotUser_true_iff (m : Message) : isNotUser m = true ↔ m.role ≠ Role.user := by
  unfold isNotUser
  cases hr : m.role <;> simp [hr]

theorem foldl_pass1step_concat :
    ∀ (msgs : List Message) (acc : List (List Nat)) (s : List Nat),
      List.foldl pass1step (acc ++ [s]) msgs = acc ++ collectTurn s msgs := by
  intro msgs
  induction msgs with
  | nil => intro acc s; simp [collectTurn]
  | cons m rest ih =>
    intro acc s
    rw [List.foldl_cons]
    cases hr : m.role with
    | user =>
      rw [show pass1step (acc ++ [s]) m = (acc ++ [s]) ++ [[]] from by
          simp [pass1step, hr]]
      rw [ih (acc ++ [s]) []]
      rw [show collectTurn s (m :: rest) = s :: collectTurn [] rest from by
          simp [collectTurn, hr]]
      simp
    | assistant =>
      cases hp : getProviderPanel m.model with
      | some p =>
        rw [show pass1step (acc ++ [s]) m = acc ++ [jsSetAdd s p] from by
            simp [pass1step, hr, hp, List.getLast?_concat, List.dropLast_concat]]
        rw [ih acc (jsSetAdd s p)]
        rw [show collectTurn s (m :: rest) = collectTurn (panelStep s m) rest from by
            simp [collectTurn, hr]]
        rw [show panelStep s m = jsSetAdd s p from by simp [panelStep, hr, hp]]
      | none =>
        rw [show pass1step (acc ++ [s]) m = acc ++ [s] from by
            simp [pass1step, hr, hp, List.getLast?_concat]]
        rw [ih acc s]
        rw [show collectTurn s (m :: rest) = collectTurn (panelStep s m) rest from by
            simp [collectTurn, hr]]
        rw [show panelStep s m = s from by simp [panelStep, hr, hp]]
    | error =>
      rw [show pass1step (acc ++ [s]) m = acc ++ [s] from by simp [pass1step, hr]]
      rw [ih acc s]
      rw [show collectTurn s (m :: rest) = collectTurn (panelStep s m) rest from by
          simp [collectTurn, hr]]
      rw [show panelStep s m = s from by simp [panelStep, hr]]

theorem userTurnPanels_eq_turnsSpec :
    ∀ msgs : List Message, userTurnPanels msgs = turnsSpec msgs := by
  intro msgs
  induction msgs with
  | nil => rfl
  | cons m rest ih =>
    unfold userTurnPanels at ih ⊢
    rw [List.foldl_cons]
    cases hr : m.role with
    | user =>
      rw [show pass1step [] m = [] ++ [([] : List Nat)] from by simp [pass1step, hr]]
      rw [foldl_pass1step_concat rest [] []]
      rw [show turnsSpec (m :: rest) = collectTurn [] rest from by simp [turnsSpec, hr]]
      simp
    | assistant =>
      rw [show pass1step [] m = [] from by simp [pass1step, hr]]
      rw [ih]
      rw [show turnsSpec (m :: rest) = turnsSpec rest from by simp [turnsSpec, hr]]
    | error =>
      rw [show pass1step [] m = [] from by simp [pass1step, hr]]
      rw [ih]
      rw [show turnsSpec (m :: rest) = turnsSpec rest from by simp [turnsSpec, hr]]

theorem collectTurn_eq_takeDrop :
    ∀ (rest : List Message) (s : List Nat),
      collectTurn s rest
        = List.foldl panelStep s (rest.takeWhile isNotUser)
            :: turnsSpec (rest.dropWhile isNotUser) := by
  intro rest
  induction rest with
  | nil => intro s; simp [collectTurn, turnsSpec]
  | cons m rest ih =>
    intro s
    cases hr : m.role with
    | user =>
      rw [show collectTurn s (m :: rest) = s :: collectTurn [] rest from by
          simp [collectTurn, hr]]
      rw [List.takeWhile_cons, List.dropWhile_cons,
        show isNotUser m = false from by simp [isNotUser, hr]]
      simp [turnsSpec, hr]
    | assistant =>
      rw [show collectTurn s (m :: rest) = collectTurn (panelStep s m) rest from by
          simp [collectTurn, hr]]
      rw [ih (panelStep s m)]
      rw [List.takeWhile_cons, List.dropWhile_cons,
        show isNotUser m = true from by simp [isNotUser, hr]]
      simp
    | error =>
      rw [show collectTurn s (m :: rest) = collectTurn (panelStep s m) rest from by
          simp [collectTurn, hr]]
      rw [ih (panelStep s m)]
      rw [List.takeWhile_cons, List.dropWhile_cons,
        show isNotUser m = true from by simp [isNotUser, hr]]
      simp

theorem turnsSpec_eq_turnList :
    ∀ msgs : List Message,
      turnsSpec msgs = (turnList msgs).map (fun t => List.foldl panelStep [] t.2) := by
  intro msgs
  induction msgs using turnList.induct with
  | case1 => simp [turnsSpec, turnList]
  | case2 m rest h ih =>
    rw [show turnsSpec (m :: rest) = collectTurn [] rest from by simp [turnsSpec, h]]
    rw [collectTurn_eq_takeDrop rest []]
    rw [show turnList (m :: rest)
        = (m.content, rest.takeWhile isNotUser) :: turnList (rest.dropWhile isNotUser) from by
        simp only [turnList]; rw [if_pos h]]
    rw [List.map_cons, ih]
  | case3 m rest h ih =>
    rw [show turnsSpec (m :: rest) = turnsSpec rest from by simp [turnsSpec, h]]
    rw [show turnList (m :: rest) = turnList rest from by
        simp only [turnList]; rw [if_neg h]]
    exact ih

theorem mem_jsSetAdd (s : List Nat) (p q : Nat) :
    q ∈ jsSetAdd s p ↔ q ∈ s ∨ q = p := by
  unfold jsSetAdd
  by_cases hp : p ∈ s
  · rw [if_pos hp]
    constructor
    · exact Or.inl
    · rintro (h | rfl)
      · exact h
      · exact hp
  · rw [if_neg hp]
    simp

theorem mem_foldl_panelStep :
    ∀ (block : List Message) (s : List Nat) (slot : Nat),
      slot ∈ List.foldl panelStep s block
        ↔ slot ∈ s
          ∨ ∃ m ∈ block, m.role = Role.assistant ∧ getProviderPanel m.model = some slot := by
  intro block
  induction block with
  | nil => intro s slot; simp
  | cons m rest ih =>
    intro s slot
    rw [List.foldl_cons, ih (panelStep s m) slot]
    have hstep : slot ∈ panelStep s m
        ↔ slot ∈ s ∨ (m.role = Role.assistant ∧ getProviderPanel m.model = some slot) := by
      cases hr : m.role with
      | assistant =>
        cases hp : getProviderPanel m.model with
        | some p =>
          rw [show panelStep s m = jsSetAdd s p from by simp [panelStep, hr, hp]]
          rw [mem_jsSetAdd]
          simp [hr, hp, eq_comm]
        | none =>
          rw [show panelStep s m = s from by simp [panelStep, hr, hp]]
          simp [hp]
      | user =>
        rw [show panelStep s m = s from by simp [panelStep, hr]]
        simp [hr]
      | error =>
        rw [show panelStep s m = s from by simp [panelStep, hr]]
        simp [hr]
    rw [hstep]
    simp [or_assoc]

theorem responders_iff (block : List Message) (slot : Nat) :
    slot ∈ List.foldl panelStep [] block
      ↔ ∃ m ∈ block, m.role = Role.assistant ∧ getProviderPanel m.model = some slot := by
  rw [mem_foldl_panelStep block [] slot]
  simp

theorem filter_renderPass2 (enabled : List Nat) (slot : Nat) :
    ∀ (msgs : List Message) (turns : List (List Nat)) (k : Nat),
      (renderPass2 turns enabled slot k msgs).filter (fun b => decide (b.role = Role.user))
        = wpass enabled slot (turns.drop k) msgs := by
  intro msgs
  induction msgs with
  | nil => intro turns k; simp [renderPass2, wpass]
  | cons m rest ih =>
    intro turns k
    have hgd : (turns.drop k).getD 0 [] = turns.getD k [] := by
      rw [List.getD_eq_getElem?_getD, List.getD_eq_getElem?_getD, List.getElem?_drop,
        Nat.add_zero]
    cases hr : m.role with
    | user =>
      rw [show renderPass2 turns enabled slot k (m :: rest)
          = (if slot ∈ turns.getD k [] ∧ slot ∈ enabled
             then [(⟨Role.user, m.content⟩ : Bubble)] else [])
            ++ renderPass2 turns enabled slot (k + 1) rest from by simp [renderPass2, hr]]
      rw [show wpass enabled slot (turns.drop k) (m :: rest)
          = (if slot ∈ (turns.drop k).getD 0 [] ∧ slot ∈ enabled
             then [(⟨Role.user, m.content⟩ : Bubble)] else [])
            ++ wpass enabled slot ((turns.drop k).drop 1) rest from by simp [wpass, hr]]
      have hhead : List.filter (fun b => decide (b.role = Role.user))
          (if slot ∈ turns.getD k [] ∧ slot ∈ enabled
           then [(⟨Role.user, m.content⟩ : Bubble)] else [])
        = (if slot ∈ turns.getD k [] ∧ slot ∈ enabled
           then [(⟨Role.user, m.content⟩ : Bubble)] else []) := by
        by_cases hc : slot ∈ turns.getD k [] ∧ slot ∈ enabled
        · rw [if_pos hc]
          simp
        · rw [if_neg hc]
          rfl
      rw [List.filter_append, hhead, hgd, List.drop_drop, ih turns (k + 1)]
    | assistant =>
      rw [show renderPass2 turns enabled slot k (m :: rest)
          = ((match getProviderPanel m.model with
             | some p => if p = slot ∧ slot ∈ enabled
                 then [(⟨Role.assistant, m.content⟩ : Bubble)] else []
             | none => []) : List Bubble) ++ renderPass2 turns enabled slot k rest from by
          simp [renderPass2, hr]]
      rw [show wpass enabled slot (turns.drop k) (m :: rest)
          = wpass enabled slot (turns.drop k) rest from by simp [wpass, hr]]
      rw [List.filter_append, ← ih turns k]
      have hhead : List.filter (fun b => decide (b.role = Role.user))
          ((match getProviderPanel m.model with
            | some p => if p = slot ∧ slot ∈ enabled
                then [(⟨Role.assistant, m.content⟩ : Bubble)] else []
            | none => []) : List Bubble) = [] := by
        cases hp : getProviderPanel m.model with
        | some p =>
          by_cases hc : p = slot ∧ slot ∈ enabled
          · simp [hc]
          · simp [hc]
        | none => simp
      rw [hhead, List.nil_append]
    | error =>
      rw [show renderPass2 turns enabled slot k (m :: rest)
          = ((match getProviderPanel m.model with
             | some p => if p = slot ∧ slot ∈ enabled
                 then [(⟨Role.error, m.content⟩ : Bubble)] else []
             | none => []) : List Bubble) ++ renderPass2 turns enabled slot k rest from by
          simp [renderPass2, hr]]
      rw [show wpass enabled slot (turns.drop k) (m :: rest)
          = wpass enabled slot (turns.drop k) rest from by simp [wpass, hr]]
      rw [List.filter_append, ← ih turns k]
      have hhead : List.filter (fun b => decide (b.role = Role.user))
          ((match getProviderPanel m.model with
            | some p => if p = slot ∧ slot ∈ enabled
                then [(⟨Role.error, m.content⟩ : Bubble)] else []
            | none => []) : List Bubble) = [] := by
        cases hp : getProviderPanel m.model with
        | some p =>
          by_cases hc : p = slot ∧ slot ∈ enabled
          · simp [hc]
          · simp [hc]
        | none => simp
      rw [hhead, List.nil_append]

theorem wpass_skip_nonuser (enabled : List Nat) (slot : Nat) :
    ∀ (l l2 : List Message) (ts : List (List Nat)),
      (∀ m ∈ l, isNotUser m = true) →
      wpass enabled slot ts (l ++ l2) = wpass enabled slot ts l2 := by
  intro l
  induction l with
  | nil => intro l2 ts h; rfl
  | cons m rest ih =>
    intro l2 ts h
    have hm : isNotUser m = true := h m (List.mem_cons_self m rest)
    have hr : ¬(m.role = Role.user) := (isNotUser_true_iff m).mp hm
    rw [List.cons_append]
    rw [show wpass enabled slot ts (m :: (rest ++ l2))
        = wpass enabled slot ts (rest ++ l2) from by simp [wpass, hr]]
    exact ih l2 ts (fun x hx => h x (List.mem_cons_of_mem m hx))

theorem wpass_eq_filterMap (enabled : List Nat) (slot : Nat) :
    ∀ msgs : List Message,
      wpass enabled slot ((turnList msgs).map (fun t => List.foldl panelStep [] t.2)) msgs
        = (turnList msgs).filterMap (fun t =>
            if slot ∈ List.foldl panelStep [] t.2 ∧ slot ∈ enabled
            then some ⟨Role.user, t.1⟩ else none) := by
  intro msgs
  induction msgs using turnList.induct with
  | case1 =>
    simp only [turnList]
    rfl
  | case2 m rest h ih =>
    have htw : ∀ x ∈ rest.takeWhile isNotUser, isNotUser x = true :=
      fun x hx => List.mem_takeWhile_imp hx
    rw [show turnList (m :: rest)
        = (m.content, rest.takeWhile isNotUser) :: turnList (rest.dropWhile isNotUser) from by
        simp only [turnList]; rw [if_pos h]]
    rw [List.map_cons, List.filterMap_cons]
    rw [show wpass enabled slot
        (List.foldl panelStep [] (rest.takeWhile isNotUser)
          :: (turnList (rest.dropWhile isNotUser)).map (fun t => List.foldl panelStep [] t.2))
        (m :: rest)
      = (if slot ∈ List.foldl panelStep [] (rest.takeWhile isNotUser) ∧ slot ∈ enabled
         then [(⟨Role.user, m.content⟩ : Bubble)] else [])
        ++ wpass enabled slot
            ((turnList (rest.dropWhile isNotUser)).map (fun t => List.foldl panelStep [] t.2))
            rest from by simp [wpass, h]]
    have hskip := wpass_skip_nonuser enabled slot (rest.takeWhile isNotUser)
      (rest.dropWhile isNotUser)
      ((turnList (rest.dropWhile isNotUser)).map (fun t => List.foldl panelStep [] t.2)) htw
    rw [List.takeWhile_append_dropWhile] at hskip
    rw [hskip, ih]
    by_cases hc : slot ∈ List.foldl panelStep [] (rest.takeWhile isNotUser) ∧ slot ∈ enabled
    · simp [hc]
    · simp [hc]
  | case3 m rest h ih =>
    rw [show turnList (m :: rest) = turnList rest from by
        simp only [turnList]; rw [if_neg h]]
    rw [show wpass enabled slot
        ((turnList rest).map (fun t => List.foldl panelStep [] t.2)) (m :: rest)
      = wpass enabled slot
          ((turnList rest).map (fun t => List.foldl panelStep [] t.2)) rest from by
        simp [wpass, h]]
    exact ih

/-! ### Claim theorems -/

/-- C1: panel membership law for grid view. The user-role bubbles rendered
into slot `slot`'s panel are exactly one bubble per user turn whose block
contains at least one assistant-role message with a model resolving to
`slot` - and only while `slot` is enabled; a user message is never shown in
a panel that did not respond to its turn, nor in a disabled panel. -/
theorem c1_panel_membership (msgs : List Message) (enabled : List Nat) (slot : Nat)
    (prev : List Bubble) :
    (renderMessagesPanel msgs enabled slot prev).filter (fun b => decide (b.role = Role.user))
      = (turnList msgs).filterMap (fun t =>
          if (∃ m ∈ t.2, m.role = Role.assistant ∧ getProviderPanel m.model = some slot)
              ∧ slot ∈ enabled
          then some ⟨Role.user, t.1⟩ else none) := by
  unfold renderMessagesPanel
  rw [filter_renderPass2 enabled slot msgs (userTurnPanels msgs) 0, List.drop_zero]
  rw [userTurnPanels_eq_turnsSpec, turnsSpec_eq_turnList]
  rw [wpass_eq_filterMap]
  have hfun : (fun t : String × List Message =>
      if slot ∈ List.foldl panelStep [] t.2 ∧ slot ∈ enabled
      then some (⟨Role.user, t.1⟩ : Bubble) else none)
    = (fun t : String × List Message =>
      if (∃ m ∈ t.2, m.role = Role.assistant ∧ getProviderPanel m.model = some slot)
          ∧ slot ∈ enabled
      then some (⟨Role.user, t.1⟩ : Bubble) else none) := by
    funext t
    exact if_congr (and_congr (responders_iff t.2 slot) Iff.rfl) rfl rfl
  rw [hfun]

/-- C2 counterexample: toggling slot 1 off then on re-inserts it at the end
of the `enabledProviders` set, so the dispatch fan-out (which follows
insertion order, not ascending slot ids) marks slot 2 as the unique primary
request even though slot 1 is enabled and lower. -/
theorem c2_counterexample :
    toggleProvider 1 true (toggleProvider 1 false [1, 2, 3, 4]) = [2, 3, 4, 1]
    ∧ 1 ∈ toggleProvider 1 true (toggleProvider 1 false [1, 2, 3, 4])
    ∧ ((dispatchRequests (toggleProvider 1 true (toggleProvider 1 false [1, 2, 3, 4]))
          defaultModels "hi").filter
        (fun r => r.skipUserMessage == false)).map (fun r => r.panelNum) = [2] := by
  decide

/-- C2 (amended): in every dispatch cycle with a non-empty enabled set,
exactly one request is primary, namely the one for the FIRST slot in the
enabled set's insertion order (which is the lowest slot id only when no
toggle re-inserted a slot); every other request sets
`skip_user_message = true`, and the requests cover the enabled slots
one-to-one. -/
theorem c2_amended (enabled : List Nat) (models : Nat → String) (message : String)
    (h : enabled ≠ []) :
    (dispatchRequests enabled models message).map (fun r => r.skipUserMessage)
      = false :: List.replicate (enabled.length - 1) true
    ∧ (dispatchRequests enabled models message).map (fun r => r.panelNum) = enabled := by
  refine ⟨?_, dispatchRequests_slots enabled models message⟩
  obtain ⟨a, rest, rfl⟩ := List.exists_cons_of_ne_nil h
  unfold dispatchRequests
  rw [List.map_map, List.enum_cons, List.map_cons]
  have h2 : (List.enumFrom 1 rest).map
      ((fun r : DispatchRequest => r.skipUserMessage) ∘ fun p : Nat × Nat =>
        ({ provider := PROVIDER_ID p.2, message := message, panelNum := p.2,
           skipUserMessage := decide (p.1 > 0), model := models p.2 } : DispatchRequest))
      = List.replicate rest.length true := by
    rw [show ((fun r : DispatchRequest => r.skipUserMessage) ∘ fun p : Nat × Nat =>
        ({ provider := PROVIDER_ID p.2, message := message, panelNum := p.2,
           skipUserMessage := decide (p.1 > 0), model := models p.2 } : DispatchRequest))
        = fun p : Nat × Nat => decide (p.1 > 0) from rfl]
    exact enumFrom_map_skip rest 1 (by omega)
  rw [h2]
  simp

theorem c2_witness :
    (dispatchRequests [2, 3, 4, 1] defaultModels "hi").map (fun r => r.skipUserMessage)
      = false :: List.replicate ([2, 3, 4, 1].length - 1) true
    ∧ (dispatchRequests [2, 3, 4, 1] defaultModels "hi").map (fun r => r.panelNum)
      = [2, 3, 4, 1] :=
  c2_amended [2, 3, 4, 1] defaultModels "hi" (by decide)

/-- C3 counterexample: a failure whose `detail` is a missing-API-key message
is routed to the aggregated alert ONLY; the `if/else if` in the catch block
skips the in-panel error bubble, contradicting the claim that a bubble is
rendered in addition to the coalesced alert. -/
theorem c3_counterexample :
    sendToProvider
        { ok := false, status := 500,
          body := BodyResult.parsed
            { detail := some "OpenAI API key not configured", assistant := "" } }
      = SlotEffect.apiKeyAlert "OpenAI API key not configured"
    ∧ isErrorBubble
        (sendToProvider
          { ok := false, status := 500,
            body := BodyResult.parsed
              { detail := some "OpenAI API key not configured", assistant := "" } })
      = false := by
  decide

/-- C3 (amended): a provider request failing with a missing-API-key
configuration error is routed ONLY to the error aggregator's coalesced
alert; no error bubble is rendered in that provider's panel. Sibling
requests are unaffected: every slot's effect depends only on that slot's
own response, and the cycle's join still collects one effect per enabled
slot. -/
theorem c3_amended (detail assistant : String) (status : Nat)
    (h : strIncludes detail "API key not configured" = true) :
    sendToProvider
        { ok := false, status := status,
          body := BodyResult.parsed { detail := some detail, assistant := assistant } }
      = SlotEffect.apiKeyAlert detail
    ∧ isErrorBubble
        (sendToProvider
          { ok := false, status := status,
            body := BodyResult.parsed { detail := some detail, assistant := assistant } })
      = false
    ∧ (∀ (enabled : List Nat) (responses : Nat → ProviderResponse),
        (dispatchCycleEffects enabled responses).map Prod.fst = enabled)
    ∧ (∀ (responses : Nat → ProviderResponse) (m n : Nat) (r : ProviderResponse),
        m ≠ n →
          sendToProvider (Function.update responses n r m) = sendToProvider (responses m)) := by
  refine ⟨?_, ?_, ?_, ?_⟩
  · simp [sendToProvider, h]
  · simp [sendToProvider, h, isErrorBubble]
  · intro enabled responses
    unfold dispatchCycleEffects
    rw [List.map_map]
    rw [show ((Prod.fst ∘ fun n : Nat => (n, sendToProvider (responses n))) : Nat → Nat)
        = id from rfl]
    exact List.map_id enabled
  · intro responses m n r hmn
    rw [Function.update_noteq hmn]

theorem c3_witness :
    sendToProvider
        { ok := false, status := 500,
          body := BodyResult.parsed
            { detail := some "Anthropic API key not configured", assistant := "" } }
      = SlotEffect.apiKeyAlert "Anthropic API key not configured" :=
  (c3_amended "Anthropic API key not configured" "" 500 (by decide)).1

/-- C6 counterexample: a non-JSON 502 response renders the JSON parser's
exception message, and the HTTP status code 502 does not occur in the
rendered text, contradicting the claim that the status is embedded. -/
theorem c6_counterexample :
    sendToProvider
        { ok := false, status := 502,
          body := BodyResult.notJson "Unexpected token < in JSON at position 0" }
      = SlotEffect.errorBubble "Error: Unexpected token < in JSON at position 0"
    ∧ strIncludes "Error: Unexpected token < in JSON at position 0" "502" = false := by
  decide

/-- C6 (amended): a provider response whose body is not JSON fails scoped to
that one slot, rendering an error bubble whose text is the JSON parse
exception's message prefixed with `Error: ` - independent of the HTTP
status code and of the `ok` flag (the status is NOT embedded in the
message). -/
theorem c6_amended (okFlag : Bool) (status : Nat) (parseMsg : String)
    (h : strIncludes parseMsg "API key not configured" = false) :
    sendToProvider { ok := okFlag, status := status, body := BodyResult.notJson parseMsg }
      = SlotEffect.errorBubble ("Error: " ++ parseMsg) := by
  simp [sendToProvider, h]

theorem c6_witness :
    sendToProvider
        { ok := false, status := 502,
          body := BodyResult.notJson "Unexpected end of input" }
      = SlotEffect.errorBubble ("Error: " ++ "Unexpected end of input") :=
  c6_amended false 502 "Unexpected end of input" (by decide)

/-- C7: post-dispatch reconciliation (`selectConversation(id, true)` after
the join) replaces the in-memory conversation (hence the message state)
with the server's canonical copy and re-renders every panel from it, while
the enabled-provider set and the per-slot model selections are left exactly
as they were. -/
theorem c7_reconciliation (conv : Conversation) (st : AppState) (slot : Nat) :
    (selectConversation conv true st).currentConversation = some conv
    ∧ (selectConversation conv true st).enabledProviders = st.enabledProviders
    ∧ (selectConversation conv true st).providerModels = st.providerModels
    ∧ (selectConversation conv true st).panels slot
        = renderMessagesPanel conv.messages st.enabledProviders slot (st.panels slot) :=
  ⟨rfl, rfl, rfl, rfl⟩

/-- C8: reconciliation is idempotent - re-selecting the same canonical
conversation twice in a row (each render clears the panel before rebuilding
it from the canonical message list) yields per-slot panel contents
identical to reconciling once. -/
theorem c8_reconcile_idempotent (conv : Conversation) (st : AppState) (slot : Nat) :
    (selectConversation conv true (selectConversation conv true st)).panels slot
      = (selectConversation conv true st).panels slot :=
  rfl

/-- C9: `getProviderPanel` tests substrings in a fixed order - `openai` or
`gpt` first, then `claude`, then `gemini`, then `grok` - returning the
first match; any model containing `gpt` resolves to slot 1 regardless of
other keywords, and a null model or a keyword-free model resolves to null. -/
theorem c9_provider_resolution (m : String) :
    ((strIncludes m "openai" = true ∨ strIncludes m "gpt" = true) →
        getProviderPanel (some m) = some 1)
    ∧ (strIncludes m "openai" = false → strIncludes m "gpt" = false →
        strIncludes m "claude" = true → getProviderPanel (some m) = some 2)
    ∧ (strIncludes m "openai" = false → strIncludes m "gpt" = false →
        strIncludes m "claude" = false → strIncludes m "gemini" = true →
        getProviderPanel (some m) = some 3)
    ∧ (strIncludes m "openai" = false → strIncludes m "gpt" = false →
        strIncludes m "claude" = false → strIncludes m "gemini" = false →
        strIncludes m "grok" = true → getProviderPanel (some m) = some 4)
    ∧ (strIncludes m "openai" = false → strIncludes m "gpt" = false →
        strIncludes m "claude" = false → strIncludes m "gemini" = false →
        strIncludes m "grok" = false → getProviderPanel (some m) = none)
    ∧ getProviderPanel none = none := by
  refine ⟨?_, ?_, ?_, ?_, ?_, rfl⟩
  · rintro (h | h) <;> simp [getProviderPanel, h]
  all_goals intros; simp [getProviderPanel, *]

theorem c9_witness :
    strIncludes "gpt-claude-gemini-grok" "gpt" = true
    ∧ getProviderPanel (some "gpt-claude-gemini-grok") = some 1 :=
  ⟨by decide, (c9_provider_resolution "gpt-claude-gemini-grok").1 (Or.inr (by decide))⟩

theorem oxford_eq :
    ∀ (l : List String) (a b : String),
      jsJoin ", " ((a :: b :: l).dropLast) ++ ", & " ++ ((a :: b :: l).getLast?.getD "")
        = oxfordJoin (a :: b :: l) := by
  intro l
  induction l with
  | nil => intro a b; rfl
  | cons c l ih =>
    intro a b
    rw [show oxfordJoin (a :: b :: c :: l) = a ++ ", " ++ oxfordJoin (b :: c :: l) from rfl]
    rw [← ih b c]
    rw [List.dropLast_cons₂, List.getLast?_cons_cons]
    rw [show (b :: c :: l).dropLast = b :: (c :: l).dropLast from List.dropLast_cons₂]
    rw [show jsJoin ", " (a :: b :: (c :: l).dropLast)
        = a ++ ", " ++ jsJoin ", " (b :: (c :: l).dropLast) from rfl]
    simp [String.append_assoc]

theorem alertText_eq_specJoin : ∀ l : List String, l ≠ [] → alertText l = specJoin l
  | [], h => absurd rfl h
  | [n], _ => by simp [alertText, specJoin]
  | [a, b], _ => by simp [alertText, specJoin, jsJoin]
  | a :: b :: c :: rest, _ => by
    unfold alertText
    rw [if_neg (by simp), if_neg (by simp),
      if_pos (by simp only [List.length_cons]; omega)]
    rw [show specJoin (a :: b :: c :: rest) = oxfordJoin (a :: b :: c :: rest) from rfl]
    exact oxford_eq (c :: rest) a b

/-- C5: every flush of the error aggregator renders exactly one
notification whose text follows the spec's join rule over the distinct
provider names collected since the last flush (1 name - itself; 2 -
`A & B`; 3 or more - comma-separated with the last joined by `, & `),
and the collected set is cleared by the flush. -/
theorem c5_flush (st : Aggregator) (h : st.missingApiKeyProviders ≠ []) :
    (flushApiKeyAlert st).1 = specJoin st.missingApiKeyProviders
    ∧ (flushApiKeyAlert st).2.missingApiKeyProviders = []
    ∧ (flushApiKeyAlert st).2.timerPending = false :=
  ⟨alertText_eq_specJoin st.missingApiKeyProviders h, rfl, rfl⟩

theorem c5_witness :
    (flushApiKeyAlert aggAB).1 = specJoin ["ChatGPT", "Claude"]
    ∧ (flushApiKeyAlert aggAB).2.missingApiKeyProviders = []
    ∧ (flushApiKeyAlert aggAB).2.timerPending = false :=
  c5_flush aggAB (by decide)

/-- C10: a `sendMessage` whose trimmed input is empty returns before doing
anything - no conversation is created, no network call is made, no panel
or conversation state changes, no alert fires. -/
theorem c10_empty_input (input : String) (newConv finalConv : Conversation)
    (st : AppState) (h : jsTrim input = "") :
    sendMessage input newConv finalConv st = (st, [], false) := by
  simp [sendMessage, h]

theorem c10_witness :
    sendMessage "   " emptyConv emptyConv initialState = (initialState, [], false) :=
  c10_empty_input "   " emptyConv emptyConv initialState (by decide)

/-- C4 counterexample: invoking `sendMessage` with an empty enabled set but
no conversation selected does NOT fail fast - it first auto-creates and
selects a conversation (three network calls), and because the fresh
conversation's settings reload resets every provider to enabled, it then
even issues four provider requests. -/
theorem c4_counterexample :
    noProviderState.enabledProviders = []
    ∧ (sendMessage "hi" freshConv freshConv noProviderState).2.1 ≠ []
    ∧ ((sendMessage "hi" freshConv freshConv noProviderState).2.1.filter
        isPostMessage).length = 4
    ∧ (sendMessage "hi" freshConv freshConv noProviderState).2.1.head?
        = some (NetCall.createConversation "hi") := by
  decide

/-- C4 (amended): for every `sendMessage` invocation with a conversation
already selected and a non-empty trimmed input: if the enabled-provider set
is empty it fails fast - the no-providers alert fires, no network call is
made and the state is unchanged; if N > 0 slots are enabled it issues
exactly N provider requests, one per enabled slot. (Without a selected
conversation the code first auto-creates one, making network calls before
the guard, and the guard then sees the reloaded settings.) -/
theorem filter_post_map (reqs : List DispatchRequest) (cid : Nat) :
    ((reqs.map NetCall.postMessage ++ [NetCall.getConversation cid]).filter
        isPostMessage).map postSlot
      = reqs.map (fun r => r.panelNum) := by
  have hfilter : (reqs.map NetCall.postMessage).filter isPostMessage
      = reqs.map NetCall.postMessage := by
    rw [List.filter_eq_self]
    intro c hc
    obtain ⟨r, hr, rfl⟩ := List.mem_map.mp hc
    rfl
  rw [List.filter_append, hfilter,
    show (List.filter isPostMessage [NetCall.getConversation cid]) = [] from rfl,
    List.append_nil, List.map_map]
  rfl

theorem c4_amended (input : String) (conv : Conversation)
    (newConv finalConv : Conversation) (st : AppState)
    (hconv : st.currentConversation = some conv)
    (hmsg : jsTrim input ≠ "") :
    (st.enabledProviders = [] →
        sendMessage input newConv finalConv st = (st, [], true))
    ∧ (st.enabledProviders ≠ [] →
        ((sendMessage input newConv finalConv st).2.1.filter isPostMessage).map postSlot
          = st.enabledProviders) := by
  constructor
  · intro hempty
    simp [sendMessage, hmsg, hconv, hempty]
  · intro hne
    have hred : (sendMessage input newConv finalConv st).2.1
        = (dispatchRequests st.enabledProviders st.providerModels (jsTrim input)).map
            NetCall.postMessage ++ [NetCall.getConversation finalConv.id] := by
      simp [sendMessage, hmsg, hconv, hne]
    rw [hred, filter_post_map]
    exact dispatchRequests_slots st.enabledProviders st.providerModels (jsTrim input)

theorem c4_witness :
    ((sendMessage "hello" emptyConv convA stateA).2.1.filter isPostMessage).map postSlot
      = [1, 2] :=
  (c4_amended "hello" convA emptyConv convA stateA rfl (by decide)).2 (by decide)

end QuadChat
